import Mathlib

/-!
GMPService.cpp: the media-plugin broker and its crash-helper registry.

A shallow embedding of `dom/media/gmp/GMPService.cpp`.

* Nullable pointers are `Option`s (`none` is `nullptr`); a non-null pointer is
  the natural number naming the object it points to.
* `mPluginCrashHelpers` is an `nsClassHashtable` from plugin ids to arrays of
  helpers.  A hash table is a finite partial map whose iteration order is not
  specified, so it is embedded as a function `Nat → Option (List Nat)`.
* `nsTArray` is a `List`: `Contains` is membership, `AppendElement` appends at
  the end, `RemoveElement` erases the first occurrence, `IsEmpty` is `isEmpty`.
* Calls that leave the file (thread creation, the content-parent promise,
  DOM event dispatch, ...) are recorded in a trace of `Effect`s, and what they
  answer is an argument of the embedded function.
* `MOZ_ASSERT` is compiled out of release builds and is not embedded; the
  mutex only serialises the methods, which are embedded as atomic steps.
-/

namespace GMPService

/-! ## Result codes -/

/-- The `nsresult` codes this file returns; `NS_ERROR_OTHER` stands for any
other failure code handed back by a collaborator. -/
inductive nsresult where
  | NS_OK
  | NS_ERROR_FAILURE
  | NS_ERROR_NOT_AVAILABLE
  | NS_ERROR_INVALID_ARG
  | NS_ERROR_OTHER (code : Nat)
  deriving DecidableEq

/-! ## The crash-helper registry -/

/-- The type of `mPluginCrashHelpers`: plugin id to the array of helpers. -/
abbrev Registry := Nat → Option (List Nat)

/-- The registry of a freshly constructed service. -/
def Registry.empty : Registry := fun _ => none

/-- The helpers listed under a plugin id (none when the id has no entry). -/
def Registry.listeners (r : Registry) (aPluginId : Nat) : List Nat :=
  (r aPluginId).getD []

/-- The hash table's `Put`: bind the key to the array. -/
def Registry.Put (r : Registry) (key : Nat) (helpers : List Nat) : Registry :=
  fun k => if k = key then some helpers else r k

/-- The hash table's `RemoveAndForget`: hand out the array stored under the key
(if any) and drop the key from the table. -/
def Registry.RemoveAndForget (r : Registry) (key : Nat) :
    Option (List Nat) × Registry :=
  (r key, fun k => if k = key then none else r k)

/-- Embedding of `GoannaMediaPluginService::ConnectCrashHelper`. -/
def ConnectCrashHelper (r : Registry) (aPluginId : Nat) (aHelper : Option Nat) :
    Registry :=
  match aHelper with
  | none => r
  | some helper =>
    match r aPluginId with
    | none => r.Put aPluginId ([] ++ [helper])
    | some helpers =>
      if helpers.contains helper then r
      else r.Put aPluginId (helpers ++ [helper])

/-- Embedding of `GoannaMediaPluginService::DisconnectCrashHelper`.  Every
entry of the table is visited once and handled on its own, which is what the
function does pointwise. -/
def DisconnectCrashHelper (r : Registry) (aHelper : Option Nat) : Registry :=
  match aHelper with
  | none => r
  | some helper =>
    fun k =>
      match r k with
      | none => none
      | some helpers =>
        if !helpers.contains helper then some helpers
        else
          let helpers1 := helpers.erase helper
          if helpers1.isEmpty then none else some helpers1

/-- The dictionary `dom::PluginCrashedEventInit`. -/
structure PluginCrashedEventInit where
  mPluginID : Nat
  mBubbles : Bool
  mCancelable : Bool
  mGmpPlugin : Bool
  mPluginName : String
  mSubmittedCrashReport : Bool
  deriving DecidableEq

/-- One call of `EventDispatcher::DispatchDOMEvent`, together with the helper
whose loop iteration made it. -/
structure DispatchedEvent where
  helper : Nat
  window : Nat
  document : Nat
  eventType : String
  init : PluginCrashedEventInit
  trusted : Bool
  mOnlyChromeDispatch : Bool
  deriving DecidableEq

/-- What the DOM answers during crash notification: the window a helper names
as its event target, and the extant document of a window. -/
structure CrashEnv where
  GetPluginCrashedEventTarget : Nat → Option Nat
  GetExtantDoc : Nat → Option Nat

/-- The notification target of a helper, as the loop of
`RunPluginCrashCallbacks` resolves it: the window the helper names and that
window's extant document; it is unavailable when either is null. -/
def notificationTarget (env : CrashEnv) (helper : Nat) : Option (Nat × Nat) :=
  match env.GetPluginCrashedEventTarget helper with
  | none => none
  | some window =>
    match env.GetExtantDoc window with
    | none => none
    | some document => some (window, document)

/-- `CopyUTF8toUTF16` changes the encoding of a text, not the text. -/
def CopyUTF8toUTF16 (s : String) : String := s

/-- The body of the loop in `RunPluginCrashCallbacks` for one helper: `none`
when the iteration hits a `continue`, otherwise the event it dispatches. -/
def crashEventFor (env : CrashEnv) (aPluginId : Nat) (aPluginName : String)
    (helper : Nat) : Option DispatchedEvent :=
  match env.GetPluginCrashedEventTarget helper with
  | none => none
  | some window =>
    match env.GetExtantDoc window with
    | none => none
    | some document =>
      some {
        helper := helper
        window := window
        document := document
        eventType := "PluginCrashed"
        init := {
          mPluginID := aPluginId
          mBubbles := true
          mCancelable := true
          mGmpPlugin := true
          mPluginName := CopyUTF8toUTF16 aPluginName
          mSubmittedCrashReport := false }
        trusted := true
        mOnlyChromeDispatch := true }

/-- What `RunPluginCrashCallbacks` returns, leaves in the registry and
dispatches. -/
structure CrashRun where
  result : nsresult
  registry : Registry
  events : List DispatchedEvent

/-- Embedding of `GoannaMediaPluginService::RunPluginCrashCallbacks`. -/
def RunPluginCrashCallbacks (env : CrashEnv) (r : Registry) (aPluginId : Nat)
    (aPluginName : String) : CrashRun :=
  let taken := r.RemoveAndForget aPluginId
  match taken.1 with
  | none => { result := nsresult.NS_OK, registry := taken.2, events := [] }
  | some helpers =>
    { result := nsresult.NS_OK
      registry := taken.2
      events := helpers.filterMap (crashEventFor env aPluginId aPluginName) }

/-- A call that touches the registry. -/
inductive RegistryOp where
  | connect (aPluginId : Nat) (aHelper : Option Nat)
  | disconnect (aHelper : Option Nat)
  | crash (aPluginId : Nat) (aPluginName : String)

/-- The registry after one call. -/
def RegistryOp.apply (env : CrashEnv) (r : Registry) : RegistryOp → Registry
  | RegistryOp.connect aPluginId aHelper => ConnectCrashHelper r aPluginId aHelper
  | RegistryOp.disconnect aHelper => DisconnectCrashHelper r aHelper
  | RegistryOp.crash aPluginId aPluginName =>
    (RunPluginCrashCallbacks env r aPluginId aPluginName).registry

/-- The registry after a sequence of calls, first call first. -/
def runRegistryOps (env : CrashEnv) (r : Registry) (ops : List RegistryOp) : Registry :=
  ops.foldl (RegistryOp.apply env) r

/-- The invariant of the registry: no helper twice under one id, and no id
bound to an empty array. -/
def Registry.WellFormed (r : Registry) : Prop :=
  ∀ k helpers, r k = some helpers → helpers.Nodup ∧ helpers ≠ []

/-- Sample registry: helpers 5 and 6 under plugin id 7, helper 5 under 8. -/
def sampleRegistry : Registry :=
  fun k => if k = 7 then some [5, 6] else if k = 8 then some [5] else none

/-- Sample DOM: every helper h has window h + 100, except helper 6, which has
none; every window w has document w + 1000. -/
def sampleEnv : CrashEnv where
  GetPluginCrashedEventTarget := fun h => if h = 6 then none else some (h + 100)
  GetExtantDoc := fun w => some (w + 1000)

/-! ## The service: worker thread and capability acquisition -/

/-- The wrapper `AbstractThread::CreateXPCOMThreadWrapper` builds around a
thread. -/
structure AbstractThread where
  thread : Nat
  deriving DecidableEq

/-- The three plugin APIs a content parent is asked for (the string constants
`GMP_API_VIDEO_DECODER`, `GMP_API_VIDEO_ENCODER`, `GMP_API_DECRYPTOR`). -/
inductive GMPApi where
  | GMP_API_VIDEO_DECODER
  | GMP_API_VIDEO_ENCODER
  | GMP_API_DECRYPTOR
  deriving DecidableEq

/-- The calls that leave the file, in the order they are made. -/
inductive Effect where
  | AddObserver
  | NS_NewNamedThread (name : String) (created : Option Nat)
  | InitializePlugins (aAbstractGMPThread : AbstractThread)
  | ThreadShutdown (thread : Nat)
  | ThreadDispatch (thread : Nat) (runnable : Option Nat) (flags : Nat)
  | GetContentParent (aHelper : Option Nat) (aNodeId : String) (api : GMPApi)
      (tags : List String)
  | SetCrashHelper (actor : Nat) (helper : Option Nat)
  | DecoderDone (callback : Nat) (actor : Option Nat) (host : Option Nat)
  | EncoderDone (callback : Nat) (actor : Option Nat) (host : Option Nat)
  | DecryptorDone (callback : Nat) (actor : Option Nat)
  | DispatchDOMEvent (event : DispatchedEvent)
  deriving DecidableEq

/-- Whether the effect is an invocation of `Done` on the given callback. -/
def Effect.isDoneOf (callback : Nat) : Effect → Bool
  | Effect.DecoderDone c _ _ => c == callback
  | Effect.EncoderDone c _ _ => c == callback
  | Effect.DecryptorDone c _ => c == callback
  | _ => false

/-- How many times the trace invokes `Done` on the given callback. -/
def doneCount (callback : Nat) (trace : List Effect) : Nat :=
  (trace.filter (Effect.isDoneOf callback)).length

/-- Whether the effect is a `GetContentParent` request. -/
def Effect.isGetContentParent : Effect → Bool
  | Effect.GetContentParent _ _ _ _ => true
  | _ => false

/-- Whether the effect starts a thread (a successful `NS_NewNamedThread`). -/
def Effect.isThreadCreation : Effect → Bool
  | Effect.NS_NewNamedThread _ (some _) => true
  | _ => false

/-- Whether the effect is a call of `InitializePlugins`. -/
def Effect.isInitializePlugins : Effect → Bool
  | Effect.InitializePlugins _ => true
  | _ => false

/-- The data members of `GoannaMediaPluginService` this file uses. -/
structure GoannaMediaPluginService where
  mGMPThread : Option Nat
  mAbstractGMPThread : Option AbstractThread
  mGMPThreadShutdown : Bool
  mShuttingDownOnGMPThread : Bool
  mPluginCrashHelpers : Registry

/-- The constructor `GoannaMediaPluginService::GoannaMediaPluginService`. -/
def GoannaMediaPluginService.construct : GoannaMediaPluginService where
  mGMPThread := none
  mAbstractGMPThread := none
  mGMPThreadShutdown := false
  mShuttingDownOnGMPThread := false
  mPluginCrashHelpers := Registry.empty

/-- The service is shut down: it has no worker thread and the shutdown flag is
set. -/
def GoannaMediaPluginService.Down (s : GoannaMediaPluginService) : Prop :=
  s.mGMPThread = none ∧ s.mGMPThreadShutdown = true

/-- What a method returns, the service afterwards, and the calls it made. -/
structure Ret (α : Type) where
  value : α
  service : GoannaMediaPluginService
  trace : List Effect

/-- Embedding of `GoannaMediaPluginService::GetThread`.  The value is the
result code and the thread stored through `aThread`.  `newThread` is what
`NS_NewNamedThread` answers if it is called: a failure code or a thread. -/
def GetThread (s : GoannaMediaPluginService) (newThread : Except nsresult Nat) :
    Ret (nsresult × Option Nat) :=
  match s.mGMPThread with
  | some thread => { value := (nsresult.NS_OK, some thread), service := s, trace := [] }
  | none =>
    if s.mGMPThreadShutdown then
      { value := (nsresult.NS_ERROR_FAILURE, none), service := s, trace := [] }
    else
      match newThread with
      | Except.error rv =>
        { value := (rv, none), service := s
          trace := [Effect.NS_NewNamedThread "GMPThread" none] }
      | Except.ok thread =>
        { value := (nsresult.NS_OK, some thread)
          service := { s with mGMPThread := some thread
                              mAbstractGMPThread := some { thread := thread } }
          trace := [Effect.NS_NewNamedThread "GMPThread" (some thread),
                    Effect.InitializePlugins { thread := thread }] }

/-- Embedding of `GoannaMediaPluginService::ShutdownGMPThread`. -/
def ShutdownGMPThread (s : GoannaMediaPluginService) : Ret Unit :=
  let gmpThread := s.mGMPThread
  { value := ()
    service := { s with mGMPThreadShutdown := true
                        mGMPThread := none
                        mAbstractGMPThread := none }
    trace :=
      match gmpThread with
      | some thread => [Effect.ThreadShutdown thread]
      | none => [] }

/-- Embedding of `GoannaMediaPluginService::Init`. -/
def Init (s : GoannaMediaPluginService) (newThread : Except nsresult Nat) : Ret nsresult :=
  let got := GetThread s newThread
  { value := got.value.1, service := got.service, trace := Effect.AddObserver :: got.trace }

/-- Embedding of the overload
`GoannaMediaPluginService::GMPDispatch(already_AddRefed<nsIRunnable>, uint32_t)`;
`dispatched` is what the thread's `Dispatch` answers. -/
def GMPDispatch (s : GoannaMediaPluginService) (newThread : Except nsresult Nat)
    (event : Option Nat) (flags : Nat) (dispatched : nsresult) : Ret nsresult :=
  let got := GetThread s newThread
  match got.value with
  | (nsresult.NS_OK, some thread) =>
    { value := dispatched, service := got.service
      trace := got.trace ++ [Effect.ThreadDispatch thread event flags] }
  | (rv, _) => { value := rv, service := got.service, trace := got.trace }

/-- Embedding of the overload
`GoannaMediaPluginService::GMPDispatch(nsIRunnable*, uint32_t)`: it passes on
the event alone, so its own `flags` argument is dropped and the other overload
runs with the default value of its `flags` parameter.  That default is declared
in `GMPService.h`, which is not among the sources, and is the argument
`defaultFlags`. -/
def GMPDispatchRunnable (s : GoannaMediaPluginService) (newThread : Except nsresult Nat)
    (event : Option Nat) (_flags : Nat) (defaultFlags : Nat) (dispatched : nsresult) :
    Ret nsresult :=
  GMPDispatch s newThread event defaultFlags dispatched

/-- Embedding of `GoannaMediaPluginService::GetAbstractGMPThread`. -/
def GetAbstractGMPThread (s : GoannaMediaPluginService) : Option AbstractThread :=
  s.mAbstractGMPThread

/-- A capability actor (`GMPVideoDecoderParent`, `GMPVideoEncoderParent`): the
object and the host its `Host()` returns. -/
structure VideoActor where
  actor : Nat
  host : Nat
  deriving DecidableEq

/-- The `GMPContentParent` methods the continuations call.  A method either
succeeds and stores an actor through its out-parameter, or fails with a code and
leaves the out-parameter as it was. -/
structure GMPContentParent where
  GetGMPVideoDecoder : Nat → Except nsresult VideoActor
  GetGMPVideoEncoder : Except nsresult VideoActor
  GetGMPDecryptor : Except nsresult Nat

/-- The `GMPContentParent::CloseBlocker` a resolved promise carries. -/
structure CloseBlocker where
  mParent : Option GMPContentParent

/-- How the promise returned by `GetContentParent` is settled. -/
inductive Settlement where
  | Resolve (wrapper : CloseBlocker)
  | Reject

/-- The promise's `Then`: when the promise is resolved the first continuation
runs on the resolve value, when it is rejected the second one runs, and a
promise that is never settled runs neither. -/
def MozPromiseThen (promise : Option Settlement) (onResolve : CloseBlocker → List Effect)
    (onReject : List Effect) : List Effect :=
  match promise with
  | none => []
  | some (Settlement.Resolve wrapper) => onResolve wrapper
  | some Settlement.Reject => onReject

/-- Embedding of `GoannaMediaPluginService::GetDecryptingGMPVideoDecoder`.
`promise` is how the promise of `GetContentParent` gets settled; the trace
lists the request followed by what the continuation does. -/
def GetDecryptingGMPVideoDecoder (s : GoannaMediaPluginService)
    (promise : Option Settlement) (aHelper : Option Nat)
    (aTags : Option (List String)) (aNodeId : String) (aCallback : Option Nat)
    (aDecryptorId : Nat) : nsresult × List Effect :=
  match aTags with
  | none => (nsresult.NS_ERROR_INVALID_ARG, [])
  | some tags =>
    if !(tags.length > 0) then (nsresult.NS_ERROR_INVALID_ARG, [])
    else
      match aCallback with
      | none => (nsresult.NS_ERROR_INVALID_ARG, [])
      | some rawCallback =>
        if s.mShuttingDownOnGMPThread then (nsresult.NS_ERROR_FAILURE, [])
        else
          (nsresult.NS_OK,
            Effect.GetContentParent aHelper aNodeId GMPApi.GMP_API_VIDEO_DECODER tags ::
            MozPromiseThen promise
              (fun wrapper =>
                match wrapper.mParent with
                | none => [Effect.DecoderDone rawCallback none none]
                | some parent =>
                  match parent.GetGMPVideoDecoder aDecryptorId with
                  | Except.ok a =>
                    [Effect.SetCrashHelper a.actor aHelper,
                     Effect.DecoderDone rawCallback (some a.actor) (some a.host)]
                  | Except.error _ => [Effect.DecoderDone rawCallback none none])
              [Effect.DecoderDone rawCallback none none])

/-- Embedding of `GoannaMediaPluginService::GetGMPVideoEncoder`. -/
def GetGMPVideoEncoder (s : GoannaMediaPluginService)
    (promise : Option Settlement) (aHelper : Option Nat)
    (aTags : Option (List String)) (aNodeId : String) (aCallback : Option Nat) :
    nsresult × List Effect :=
  match aTags with
  | none => (nsresult.NS_ERROR_INVALID_ARG, [])
  | some tags =>
    if !(tags.length > 0) then (nsresult.NS_ERROR_INVALID_ARG, [])
    else
      match aCallback with
      | none => (nsresult.NS_ERROR_INVALID_ARG, [])
      | some rawCallback =>
        if s.mShuttingDownOnGMPThread then (nsresult.NS_ERROR_FAILURE, [])
        else
          (nsresult.NS_OK,
            Effect.GetContentParent aHelper aNodeId GMPApi.GMP_API_VIDEO_ENCODER tags ::
            MozPromiseThen promise
              (fun wrapper =>
                match wrapper.mParent with
                | none => [Effect.EncoderDone rawCallback none none]
                | some parent =>
                  match parent.GetGMPVideoEncoder with
                  | Except.ok a =>
                    [Effect.SetCrashHelper a.actor aHelper,
                     Effect.EncoderDone rawCallback (some a.actor) (some a.host)]
                  | Except.error _ => [Effect.EncoderDone rawCallback none none])
              [Effect.EncoderDone rawCallback none none])

/-- Embedding of `GoannaMediaPluginService::GetGMPDecryptor`.  `sandbox` is
`none` in a build without `XP_LINUX` and `MOZ_GMP_SANDBOX`, where the check is
compiled out, and otherwise what `SandboxInfo::Get().CanSandboxMedia()`
answers. -/
def GetGMPDecryptor (sandbox : Option Bool) (s : GoannaMediaPluginService)
    (promise : Option Settlement) (aHelper : Option Nat)
    (aTags : Option (List String)) (aNodeId : String) (aCallback : Option Nat) :
    nsresult × List Effect :=
  if sandbox = some false then (nsresult.NS_ERROR_NOT_AVAILABLE, [])
  else
    match aTags with
    | none => (nsresult.NS_ERROR_INVALID_ARG, [])
    | some tags =>
      if !(tags.length > 0) then (nsresult.NS_ERROR_INVALID_ARG, [])
      else
        match aCallback with
        | none => (nsresult.NS_ERROR_INVALID_ARG, [])
        | some rawCallback =>
          if s.mShuttingDownOnGMPThread then (nsresult.NS_ERROR_FAILURE, [])
          else
            (nsresult.NS_OK,
              Effect.GetContentParent aHelper aNodeId GMPApi.GMP_API_DECRYPTOR tags ::
              MozPromiseThen promise
                (fun wrapper =>
                  match wrapper.mParent with
                  | none => [Effect.DecryptorDone rawCallback none]
                  | some parent =>
                    match parent.GetGMPDecryptor with
                    | Except.ok actor =>
                      [Effect.SetCrashHelper actor aHelper,
                       Effect.DecryptorDone rawCallback (some actor)]
                    | Except.error _ => [Effect.DecryptorDone rawCallback none])
                [Effect.DecryptorDone rawCallback none])

/-- A call on the service. -/
inductive ServiceOp where
  | Init (newThread : Except nsresult Nat)
  | RunPluginCrashCallbacks (env : CrashEnv) (aPluginId : Nat) (aPluginName : String)
  | ShutdownGMPThread
  | GMPDispatch (newThread : Except nsresult Nat) (event : Option Nat) (flags : Nat)
      (dispatched : nsresult)
  | GMPDispatchRunnable (newThread : Except nsresult Nat) (event : Option Nat)
      (flags : Nat) (defaultFlags : Nat) (dispatched : nsresult)
  | GetThread (newThread : Except nsresult Nat)
  | GetAbstractGMPThread
  | GetDecryptingGMPVideoDecoder (promise : Option Settlement) (aHelper : Option Nat)
      (aTags : Option (List String)) (aNodeId : String) (aCallback : Option Nat)
      (aDecryptorId : Nat)
  | GetGMPVideoEncoder (promise : Option Settlement) (aHelper : Option Nat)
      (aTags : Option (List String)) (aNodeId : String) (aCallback : Option Nat)
  | GetGMPDecryptor (sandbox : Option Bool) (promise : Option Settlement)
      (aHelper : Option Nat) (aTags : Option (List String)) (aNodeId : String)
      (aCallback : Option Nat)
  | ConnectCrashHelper (aPluginId : Nat) (aHelper : Option Nat)
  | DisconnectCrashHelper (aHelper : Option Nat)

/-- One call on the service.  The value is the result code, for a method that
returns one, and the thread handed out, for a method that hands one out. -/
def step (s : GoannaMediaPluginService) : ServiceOp → Ret (Option nsresult × Option Nat)
  | ServiceOp.Init newThread =>
    let out := Init s newThread
    { value := (some out.value, none), service := out.service, trace := out.trace }
  | ServiceOp.RunPluginCrashCallbacks env aPluginId aPluginName =>
    let out := RunPluginCrashCallbacks env s.mPluginCrashHelpers aPluginId aPluginName
    { value := (some out.result, none)
      service := { s with mPluginCrashHelpers := out.registry }
      trace := out.events.map Effect.DispatchDOMEvent }
  | ServiceOp.ShutdownGMPThread =>
    let out := ShutdownGMPThread s
    { value := (none, none), service := out.service, trace := out.trace }
  | ServiceOp.GMPDispatch newThread event flags dispatched =>
    let out := GMPDispatch s newThread event flags dispatched
    { value := (some out.value, none), service := out.service, trace := out.trace }
  | ServiceOp.GMPDispatchRunnable newThread event flags defaultFlags dispatched =>
    let out := GMPDispatchRunnable s newThread event flags defaultFlags dispatched
    { value := (some out.value, none), service := out.service, trace := out.trace }
  | ServiceOp.GetThread newThread =>
    let out := GetThread s newThread
    { value := (some out.value.1, out.value.2), service := out.service, trace := out.trace }
  | ServiceOp.GetAbstractGMPThread =>
    { value := (none, (GetAbstractGMPThread s).map (fun a => a.thread)), service := s
      trace := [] }
  | ServiceOp.GetDecryptingGMPVideoDecoder promise aHelper aTags aNodeId aCallback aDecryptorId =>
    let out := GetDecryptingGMPVideoDecoder s promise aHelper aTags aNodeId aCallback aDecryptorId
    { value := (some out.1, none), service := s, trace := out.2 }
  | ServiceOp.GetGMPVideoEncoder promise aHelper aTags aNodeId aCallback =>
    let out := GetGMPVideoEncoder s promise aHelper aTags aNodeId aCallback
    { value := (some out.1, none), service := s, trace := out.2 }
  | ServiceOp.GetGMPDecryptor sandbox promise aHelper aTags aNodeId aCallback =>
    let out := GetGMPDecryptor sandbox s promise aHelper aTags aNodeId aCallback
    { value := (some out.1, none), service := s, trace := out.2 }
  | ServiceOp.ConnectCrashHelper aPluginId aHelper =>
    { value := (none, none)
      service := { s with
        mPluginCrashHelpers := ConnectCrashHelper s.mPluginCrashHelpers aPluginId aHelper }
      trace := [] }
  | ServiceOp.DisconnectCrashHelper aHelper =>
    { value := (none, none)
      service := { s with
        mPluginCrashHelpers := DisconnectCrashHelper s.mPluginCrashHelpers aHelper }
      trace := [] }

/-- A sequence of calls on the service: the outcome of each call, in order. -/
def runServiceOps (s : GoannaMediaPluginService) :
    List ServiceOp → List (Ret (Option nsresult × Option Nat))
  | [] => []
  | op :: ops => step s op :: runServiceOps (step s op).service ops

/-- A sequence of `GetThread` calls: the outcome of each call, in order.  The
list gives, call by call, what `NS_NewNamedThread` answers if it is asked. -/
def runGetThreads (s : GoannaMediaPluginService) :
    List (Except nsresult Nat) → List (Ret (nsresult × Option Nat))
  | [] => []
  | newThread :: rest => GetThread s newThread :: runGetThreads (GetThread s newThread).service rest

/-- The whole trace of a sequence of outcomes. -/
def traceOf {α : Type} (outs : List (Ret α)) : List Effect :=
  (outs.map (fun out => out.trace)).flatten

/-! ## The singleton -/

/-- The two classes `GetOrCreateOnMainThread` instantiates. -/
inductive ServiceVariant where
  | GoannaMediaPluginServiceParent
  | GoannaMediaPluginServiceChild
  deriving DecidableEq

/-- The process-wide state around `sSingletonService`: the instance the static
pointer holds, every instance constructed (and initialised) so far, the n-th
of them being instance n, the number of pending `ClearOnShutdown`
registrations of the pointer, and whether process shutdown has run them. -/
structure SingletonState where
  sSingletonService : Option Nat
  constructed : List ServiceVariant
  pendingClears : Nat
  pastShutdown : Bool
  deriving DecidableEq

/-- The state of a process that has not asked for the service yet. -/
def SingletonState.start : SingletonState where
  sSingletonService := none
  constructed := []
  pendingClears := 0
  pastShutdown := false

/-- Modelled from the spec: `ClearOnShutdown` (declared in
`mozilla/ClearOnShutdown.h`, which is not among the sources) registers the
pointer for teardown at process shutdown.  What it does when it is called after
shutdown is not stated, so it is the argument `clearsWhenPast`: either the
pointer is cleared at once, or the registration is merely recorded. -/
def ClearOnShutdown (clearsWhenPast : Bool) (p : SingletonState) : SingletonState :=
  if p.pastShutdown && clearsWhenPast then { p with sSingletonService := none }
  else { p with pendingClears := p.pendingClears + 1 }

/-- Modelled from the spec: the teardown hook run at process shutdown (not
among the sources) clears every pointer registered with `ClearOnShutdown`. -/
def runShutdownHooks (p : SingletonState) : SingletonState :=
  { p with
    sSingletonService := if p.pendingClears = 0 then p.sSingletonService else none
    pendingClears := 0
    pastShutdown := true }

/-- Embedding of `GMPServiceCreateHelper::GetOrCreateOnMainThread`: the
instance returned and the state afterwards. -/
def GetOrCreateOnMainThread (XRE_IsParentProcess clearsWhenPast : Bool)
    (p : SingletonState) : Option Nat × SingletonState :=
  match p.sSingletonService with
  | some service => (some service, p)
  | none =>
    let service := p.constructed.length
    let variant :=
      if XRE_IsParentProcess then ServiceVariant.GoannaMediaPluginServiceParent
      else ServiceVariant.GoannaMediaPluginServiceChild
    let p1 := { p with constructed := p.constructed ++ [variant]
                       sSingletonService := some service }
    let p2 := ClearOnShutdown clearsWhenPast p1
    (p2.sSingletonService, p2)

/-- Embedding of `GMPServiceCreateHelper::GetOrCreate`.  `runnableRuns` says
whether the main thread runs the helper dispatched to it by a caller on another
thread; if it does not, `mService` stays null. -/
def GetOrCreate (NS_IsMainThread runnableRuns XRE_IsParentProcess clearsWhenPast : Bool)
    (p : SingletonState) : Option Nat × SingletonState :=
  if NS_IsMainThread then GetOrCreateOnMainThread XRE_IsParentProcess clearsWhenPast p
  else if runnableRuns then GetOrCreateOnMainThread XRE_IsParentProcess clearsWhenPast p
  else (none, p)

/-- Sample content parent: decoder actor 40 with host 41, no encoder, decryptor
actor 50. -/
def sampleParent : GMPContentParent where
  GetGMPVideoDecoder := fun _ => Except.ok { actor := 40, host := 41 }
  GetGMPVideoEncoder := Except.error nsresult.NS_ERROR_FAILURE
  GetGMPDecryptor := Except.ok 50

/-- Sample content parent without any capability. -/
def sampleBareParent : GMPContentParent where
  GetGMPVideoDecoder := fun _ => Except.error nsresult.NS_ERROR_FAILURE
  GetGMPVideoEncoder := Except.error nsresult.NS_ERROR_FAILURE
  GetGMPDecryptor := Except.error nsresult.NS_ERROR_FAILURE

/-- Sample service whose worker-side shutdown has begun. -/
def sampleShuttingDown : GoannaMediaPluginService :=
  { GoannaMediaPluginService.construct with mShuttingDownOnGMPThread := true }

/-! ## Lemmas on the registry -/

theorem connect_of_mem (r : Registry) (aPluginId L : Nat) (helpers : List Nat)
    (hr : r aPluginId = some helpers) (hL : L ∈ helpers) :
    ConnectCrashHelper r aPluginId (some L) = r := by
  simp [ConnectCrashHelper, hr, hL]

theorem connect_at (r : Registry) (aPluginId L : Nat) :
    (ConnectCrashHelper r aPluginId (some L)) aPluginId =
      match r aPluginId with
      | none => some [L]
      | some helpers => if L ∈ helpers then some helpers else some (helpers ++ [L]) := by
  unfold ConnectCrashHelper
  cases hr : r aPluginId with
  | none => simp [Registry.Put]
  | some helpers =>
    by_cases hL : L ∈ helpers
    · simp [hL, hr]
    · simp [hL, Registry.Put]

theorem connect_other (r : Registry) (aPluginId k : Nat) (aHelper : Option Nat)
    (hk : k ≠ aPluginId) : (ConnectCrashHelper r aPluginId aHelper) k = r k := by
  unfold ConnectCrashHelper
  cases aHelper with
  | none => rfl
  | some L =>
    cases hr : r aPluginId with
    | none => simp [Registry.Put, hk]
    | some helpers =>
      by_cases hL : L ∈ helpers
      · simp [hL]
      · simp [hL, Registry.Put, hk]

theorem disconnect_at (r : Registry) (L k : Nat) :
    (DisconnectCrashHelper r (some L)) k =
      match r k with
      | none => none
      | some helpers =>
        if L ∈ helpers then (if helpers.erase L = [] then none else some (helpers.erase L))
        else some helpers := by
  simp only [DisconnectCrashHelper]
  cases hr : r k with
  | none => rfl
  | some helpers =>
    by_cases hL : L ∈ helpers
    · simp [hL, List.isEmpty_iff]
    · simp [hL]

theorem erase_eq_filter_of_nodup (helpers : List Nat) (L : Nat) (hnd : helpers.Nodup) :
    helpers.erase L = helpers.filter (fun h => decide (h ≠ L)) := by
  rw [List.Nodup.erase_eq_filter hnd]
  apply List.filter_congr
  intro x _
  by_cases hx : x = L <;> simp [hx]

theorem filter_ne_eq_self (helpers : List Nat) (L : Nat) (hL : L ∉ helpers) :
    helpers.filter (fun h => decide (h ≠ L)) = helpers := by
  rw [List.filter_eq_self]
  intro a ha
  have : a ≠ L := fun e => hL (e ▸ ha)
  simp [this]

theorem wellFormed_connect (r : Registry) (aPluginId : Nat) (aHelper : Option Nat)
    (hr : r.WellFormed) : (ConnectCrashHelper r aPluginId aHelper).WellFormed := by
  cases aHelper with
  | none => exact hr
  | some L =>
    intro k helpers hk
    by_cases hkid : k = aPluginId
    · subst hkid
      rw [connect_at] at hk
      cases hrk : r k with
      | none =>
        rw [hrk] at hk
        simp at hk
        subst hk
        simp
      | some old =>
        rw [hrk] at hk
        have hold := hr k old hrk
        by_cases hL : L ∈ old
        · simp [hL] at hk
          subst hk
          exact hold
        · simp [hL] at hk
          subst hk
          refine ⟨?_, by simp⟩
          rw [List.nodup_append]
          refine ⟨hold.1, List.nodup_singleton L, ?_⟩
          intro a ha hb
          simp at hb
          subst hb
          exact hL ha
    · rw [connect_other r aPluginId k (some L) hkid] at hk
      exact hr k helpers hk

theorem wellFormed_disconnect (r : Registry) (aHelper : Option Nat)
    (hr : r.WellFormed) : (DisconnectCrashHelper r aHelper).WellFormed := by
  cases aHelper with
  | none => exact hr
  | some L =>
    intro k helpers hk
    rw [disconnect_at] at hk
    cases hrk : r k with
    | none => rw [hrk] at hk; simp at hk
    | some old =>
      rw [hrk] at hk
      have hold := hr k old hrk
      by_cases hL : L ∈ old
      · by_cases he : old.erase L = []
        · simp [hL, he] at hk
        · simp [hL, he] at hk
          subst hk
          exact ⟨hold.1.erase L, he⟩
      · simp [hL] at hk
        subst hk
        exact hold

theorem wellFormed_crash (env : CrashEnv) (r : Registry) (aPluginId : Nat)
    (aPluginName : String) (hr : r.WellFormed) :
    (RunPluginCrashCallbacks env r aPluginId aPluginName).registry.WellFormed := by
  intro k helpers hk
  have hreg : (RunPluginCrashCallbacks env r aPluginId aPluginName).registry
      = (r.RemoveAndForget aPluginId).2 := by
    simp only [RunPluginCrashCallbacks]
    split <;> rfl
  rw [hreg] at hk
  simp only [Registry.RemoveAndForget] at hk
  by_cases hkid : k = aPluginId
  · simp [hkid] at hk
  · simp [hkid] at hk
    exact hr k helpers hk

theorem wellFormed_run (env : CrashEnv) (ops : List RegistryOp) (r : Registry)
    (hr : r.WellFormed) : (runRegistryOps env r ops).WellFormed := by
  induction ops generalizing r with
  | nil => exact hr
  | cons op ops ih =>
    simp only [runRegistryOps, List.foldl_cons]
    apply ih
    cases op with
    | connect aPluginId aHelper => exact wellFormed_connect r aPluginId aHelper hr
    | disconnect aHelper => exact wellFormed_disconnect r aHelper hr
    | crash aPluginId aPluginName => exact wellFormed_crash env r aPluginId aPluginName hr

theorem crash_registry (env : CrashEnv) (r : Registry) (aPluginId : Nat)
    (aPluginName : String) :
    (RunPluginCrashCallbacks env r aPluginId aPluginName).registry
      = fun k => if k = aPluginId then none else r k := by
  simp only [RunPluginCrashCallbacks]
  split <;> rfl

theorem crash_events (env : CrashEnv) (r : Registry) (aPluginId : Nat)
    (aPluginName : String) :
    (RunPluginCrashCallbacks env r aPluginId aPluginName).events
      = (r.listeners aPluginId).filterMap (crashEventFor env aPluginId aPluginName) := by
  simp only [RunPluginCrashCallbacks, Registry.RemoveAndForget, Registry.listeners]
  cases r aPluginId <;> rfl

theorem crash_result (env : CrashEnv) (r : Registry) (aPluginId : Nat)
    (aPluginName : String) :
    (RunPluginCrashCallbacks env r aPluginId aPluginName).result = nsresult.NS_OK := by
  simp only [RunPluginCrashCallbacks]
  split <;> rfl

theorem crashEventFor_helper (env : CrashEnv) (aPluginId : Nat) (aPluginName : String)
    (h : Nat) (e : DispatchedEvent)
    (he : crashEventFor env aPluginId aPluginName h = some e) : e.helper = h := by
  unfold crashEventFor at he
  cases hw : env.GetPluginCrashedEventTarget h with
  | none => simp [hw] at he
  | some w =>
    cases hd : env.GetExtantDoc w with
    | none => simp [hw, hd] at he
    | some d =>
      simp [hw, hd] at he
      rw [← he]

theorem events_of_not_mem (env : CrashEnv) (aPluginId : Nat) (aPluginName : String)
    (L : Nat) (helpers : List Nat) (hL : L ∉ helpers) :
    ∀ e ∈ helpers.filterMap (crashEventFor env aPluginId aPluginName), e.helper ≠ L := by
  intro e he hcontra
  rw [List.mem_filterMap] at he
  obtain ⟨h, hh, hf⟩ := he
  have := crashEventFor_helper env aPluginId aPluginName h e hf
  rw [hcontra] at this
  exact hL (this ▸ hh)

theorem events_of_nodup (env : CrashEnv) (aPluginId : Nat) (aPluginName : String)
    (L : Nat) (e : DispatchedEvent)
    (he : crashEventFor env aPluginId aPluginName L = some e) (helpers : List Nat)
    (hnd : helpers.Nodup) (hL : L ∈ helpers) :
    (helpers.filterMap (crashEventFor env aPluginId aPluginName)).filter
      (fun x => decide (x.helper = L)) = [e] := by
  induction helpers with
  | nil => simp at hL
  | cons h t ih =>
    rw [List.nodup_cons] at hnd
    by_cases hh : h = L
    · subst hh
      have htail : (t.filterMap (crashEventFor env aPluginId aPluginName)).filter
          (fun x => decide (x.helper = h)) = [] := by
        rw [List.filter_eq_nil_iff]
        intro x hx
        simpa using events_of_not_mem env aPluginId aPluginName h t hnd.1 x hx
      have hhe : e.helper = h := crashEventFor_helper env aPluginId aPluginName h e he
      rw [List.filterMap_cons, he]
      simp only [List.filter_cons, hhe, decide_True, if_true, htail]
    · have hLt : L ∈ t := by
        rcases List.mem_cons.mp hL with h1 | h1
        · exact absurd h1.symm hh
        · exact h1
      rw [List.filterMap_cons]
      cases hf : crashEventFor env aPluginId aPluginName h with
      | none => simpa using ih hnd.2 hLt
      | some e1 =>
        have h1 : e1.helper = h := crashEventFor_helper env aPluginId aPluginName h e1 hf
        have h2 : ¬ e1.helper = L := by rw [h1]; exact hh
        simp only [List.filter_cons, h2, decide_False]
        simpa using ih hnd.2 hLt

theorem notificationTarget_some (env : CrashEnv) (L w d : Nat) :
    notificationTarget env L = some (w, d)
      ↔ env.GetPluginCrashedEventTarget L = some w ∧ env.GetExtantDoc w = some d := by
  constructor
  · intro h
    unfold notificationTarget at h
    split at h
    · simp at h
    · rename_i window hw
      split at h
      · simp at h
      · rename_i document hd
        simp only [Option.some.injEq, Prod.mk.injEq] at h
        obtain ⟨h1, h2⟩ := h
        subst h1 h2
        exact ⟨hw, hd⟩
  · rintro ⟨hw, hd⟩
    simp [notificationTarget, hw, hd]

theorem crashEventFor_of_no_target (env : CrashEnv) (aPluginId : Nat)
    (aPluginName : String) (L : Nat) (h : notificationTarget env L = none) :
    crashEventFor env aPluginId aPluginName L = none := by
  unfold notificationTarget at h
  unfold crashEventFor
  split at h
  · rename_i hw
    simp [hw]
  · rename_i window hw
    split at h
    · rename_i hd
      simp [hw, hd]
    · simp at h

theorem connect_twice_of_count_le_one (r : Registry) (aPluginId L : Nat)
    (h : (r.listeners aPluginId).count L ≤ 1) :
    ((ConnectCrashHelper (ConnectCrashHelper r aPluginId (some L)) aPluginId
        (some L)).listeners aPluginId).count L = 1
    ∧ ConnectCrashHelper (ConnectCrashHelper r aPluginId (some L)) aPluginId (some L)
        = ConnectCrashHelper r aPluginId (some L) := by
  have hat := connect_at r aPluginId L
  cases hr : r aPluginId with
  | none =>
    rw [hr] at hat
    simp only at hat
    have h2 := connect_of_mem (ConnectCrashHelper r aPluginId (some L)) aPluginId L [L] hat
      (by simp)
    rw [h2]
    refine ⟨?_, rfl⟩
    simp [Registry.listeners, hat]
  | some helpers =>
    rw [hr] at hat
    simp only [Registry.listeners, hr, Option.getD_some] at h
    by_cases hL : L ∈ helpers
    · have h1 := connect_of_mem r aPluginId L helpers hr hL
      rw [h1, h1]
      refine ⟨?_, rfl⟩
      simp only [Registry.listeners, hr, Option.getD_some]
      have := List.count_pos_iff.mpr hL
      omega
    · simp only [hL, if_false] at hat
      have h2 := connect_of_mem (ConnectCrashHelper r aPluginId (some L)) aPluginId L
        (helpers ++ [L]) hat (by simp)
      rw [h2]
      refine ⟨?_, rfl⟩
      simp [Registry.listeners, hat, List.count_eq_zero_of_not_mem hL]

theorem listeners_nodup_of_wellFormed (r : Registry) (hr : r.WellFormed) (k : Nat) :
    (r.listeners k).Nodup := by
  unfold Registry.listeners
  cases hk : r k with
  | none => simp
  | some helpers => exact (hr k helpers hk).1

theorem reached_wellFormed (env : CrashEnv) (ops : List RegistryOp) :
    (runRegistryOps env Registry.empty ops).WellFormed := by
  apply wellFormed_run
  intro k helpers hk
  simp [Registry.empty] at hk

theorem crash_notifies_of_nodup (env : CrashEnv) (r : Registry)
    (aPluginId : Nat) (aPluginName : String)
    (hnd : (r.listeners aPluginId).Nodup) :
    (RunPluginCrashCallbacks env r aPluginId aPluginName).result = nsresult.NS_OK
    ∧ (∀ L w d, L ∈ r.listeners aPluginId → notificationTarget env L = some (w, d) →
        (RunPluginCrashCallbacks env r aPluginId aPluginName).events.filter
            (fun e => decide (e.helper = L))
          = [{ helper := L, window := w, document := d, eventType := "PluginCrashed"
               init := { mPluginID := aPluginId, mBubbles := true, mCancelable := true
                         mGmpPlugin := true, mPluginName := aPluginName
                         mSubmittedCrashReport := false }
               trusted := true, mOnlyChromeDispatch := true }])
    ∧ (∀ L, (L ∉ r.listeners aPluginId ∨ notificationTarget env L = none) →
        ∀ e ∈ (RunPluginCrashCallbacks env r aPluginId aPluginName).events, e.helper ≠ L)
    ∧ (RunPluginCrashCallbacks env r aPluginId aPluginName).registry aPluginId = none
    ∧ (∀ k, k ≠ aPluginId →
        (RunPluginCrashCallbacks env r aPluginId aPluginName).registry k = r k)
    ∧ (RunPluginCrashCallbacks env
          (RunPluginCrashCallbacks env r aPluginId aPluginName).registry
          aPluginId aPluginName).events = []
    ∧ (RunPluginCrashCallbacks env
          (RunPluginCrashCallbacks env r aPluginId aPluginName).registry
          aPluginId aPluginName).registry
        = (RunPluginCrashCallbacks env r aPluginId aPluginName).registry := by
  refine ⟨crash_result env r aPluginId aPluginName, ?_, ?_, ?_, ?_, ?_, ?_⟩
  · intro L w d hL ht
    obtain ⟨hw, hd⟩ := (notificationTarget_some env L w d).mp ht
    rw [crash_events]
    apply events_of_nodup env aPluginId aPluginName L _ _ _ hnd hL
    simp [crashEventFor, hw, hd, CopyUTF8toUTF16]
  · intro L hcase e he hcontra
    rw [crash_events, List.mem_filterMap] at he
    obtain ⟨h, hh, hf⟩ := he
    have hhelper := crashEventFor_helper env aPluginId aPluginName h e hf
    rw [hcontra] at hhelper
    subst hhelper
    rcases hcase with h1 | h1
    · exact h1 hh
    · rw [crashEventFor_of_no_target env aPluginId aPluginName _ h1] at hf
      exact absurd hf (by simp)
  · rw [crash_registry]
    simp
  · intro k hk
    rw [crash_registry]
    simp [hk]
  · rw [crash_events, crash_registry]
    simp [Registry.listeners]
  · rw [crash_registry, crash_registry]
    funext k
    by_cases hk : k = aPluginId <;> simp [hk]

/-! ## The claims on the registry -/

/-- C3: in every registry state of the service (any state reached from the
empty registry by `ConnectCrashHelper`, `DisconnectCrashHelper` and
`RunPluginCrashCallbacks` calls), for every plugin id and non-null listener L,
`ConnectCrashHelper(id, L)` followed by `ConnectCrashHelper(id, L)` leaves
exactly one entry for L under id, and the registry after the second call equals
the registry after the first. -/
theorem ConnectCrashHelper_twice (env : CrashEnv) (ops : List RegistryOp)
    (aPluginId L : Nat) :
    ((ConnectCrashHelper
        (ConnectCrashHelper (runRegistryOps env Registry.empty ops) aPluginId (some L))
        aPluginId (some L)).listeners aPluginId).count L = 1
    ∧ ConnectCrashHelper
        (ConnectCrashHelper (runRegistryOps env Registry.empty ops) aPluginId (some L))
        aPluginId (some L)
      = ConnectCrashHelper (runRegistryOps env Registry.empty ops) aPluginId (some L) := by
  apply connect_twice_of_count_le_one
  exact List.nodup_iff_count_le_one.mp
    (listeners_nodup_of_wellFormed _ (reached_wellFormed env ops) aPluginId) L

/-- C3 (witness): after helper 5 was connected to plugin id 7, helper 6, not yet
listed, is connected to it twice: the first call appends it, the second changes
nothing. -/
theorem ConnectCrashHelper_twice_witness :
    (ConnectCrashHelper (runRegistryOps sampleEnv Registry.empty
        [RegistryOp.connect 7 (some 5)]) 7 (some 6)) 7 = some [5, 6]
    ∧ ((ConnectCrashHelper
        (ConnectCrashHelper (runRegistryOps sampleEnv Registry.empty
          [RegistryOp.connect 7 (some 5)]) 7 (some 6)) 7 (some 6)).listeners 7).count 6 = 1
    ∧ ConnectCrashHelper
        (ConnectCrashHelper (runRegistryOps sampleEnv Registry.empty
          [RegistryOp.connect 7 (some 5)]) 7 (some 6)) 7 (some 6)
      = ConnectCrashHelper (runRegistryOps sampleEnv Registry.empty
          [RegistryOp.connect 7 (some 5)]) 7 (some 6) :=
  ⟨by decide,
   ConnectCrashHelper_twice sampleEnv [RegistryOp.connect 7 (some 5)] 7 6⟩

/-- C4: in every registry state of the service (any state reached from the
empty registry by `ConnectCrashHelper`, `DisconnectCrashHelper` and
`RunPluginCrashCallbacks` calls), for every plugin id and plugin name,
`RunPluginCrashCallbacks(id, name)` returns `NS_OK` and delivers exactly one
notification, carrying plugin id id, plugin name name and
`mSubmittedCrashReport = false`, to every listener registered for id whose
notification target is available; a listener whose target is unavailable, or
that is not registered for id, gets none, whatever the other listeners;
afterwards id has no entry and every other entry is as before; a second
`RunPluginCrashCallbacks(id, name)` delivers nothing and leaves the registry as
it is. -/
theorem RunPluginCrashCallbacks_notifies (envOps env : CrashEnv) (ops : List RegistryOp)
    (aPluginId : Nat) (aPluginName : String) :
    (RunPluginCrashCallbacks env (runRegistryOps envOps Registry.empty ops) aPluginId
        aPluginName).result = nsresult.NS_OK
    ∧ (∀ L w d, L ∈ (runRegistryOps envOps Registry.empty ops).listeners aPluginId →
        notificationTarget env L = some (w, d) →
        (RunPluginCrashCallbacks env (runRegistryOps envOps Registry.empty ops) aPluginId
            aPluginName).events.filter (fun e => decide (e.helper = L))
          = [{ helper := L, window := w, document := d, eventType := "PluginCrashed"
               init := { mPluginID := aPluginId, mBubbles := true, mCancelable := true
                         mGmpPlugin := true, mPluginName := aPluginName
                         mSubmittedCrashReport := false }
               trusted := true, mOnlyChromeDispatch := true }])
    ∧ (∀ L, (L ∉ (runRegistryOps envOps Registry.empty ops).listeners aPluginId
          ∨ notificationTarget env L = none) →
        ∀ e ∈ (RunPluginCrashCallbacks env (runRegistryOps envOps Registry.empty ops)
          aPluginId aPluginName).events, e.helper ≠ L)
    ∧ (RunPluginCrashCallbacks env (runRegistryOps envOps Registry.empty ops) aPluginId
        aPluginName).registry aPluginId = none
    ∧ (∀ k, k ≠ aPluginId →
        (RunPluginCrashCallbacks env (runRegistryOps envOps Registry.empty ops) aPluginId
          aPluginName).registry k = (runRegistryOps envOps Registry.empty ops) k)
    ∧ (RunPluginCrashCallbacks env
          (RunPluginCrashCallbacks env (runRegistryOps envOps Registry.empty ops)
            aPluginId aPluginName).registry
          aPluginId aPluginName).events = []
    ∧ (RunPluginCrashCallbacks env
          (RunPluginCrashCallbacks env (runRegistryOps envOps Registry.empty ops)
            aPluginId aPluginName).registry
          aPluginId aPluginName).registry
        = (RunPluginCrashCallbacks env (runRegistryOps envOps Registry.empty ops)
            aPluginId aPluginName).registry :=
  crash_notifies_of_nodup env (runRegistryOps envOps Registry.empty ops) aPluginId
    aPluginName
    (listeners_nodup_of_wellFormed _ (reached_wellFormed envOps ops) aPluginId)

/-- C4 (witness): the spec's scenario with a second listener: helpers 5 and 6
are connected to plugin id 7, helper 6 has no window; plugin 7 crashes with
name "videoPlugin" and helper 5 gets one notification. -/
theorem RunPluginCrashCallbacks_notifies_witness :
    (RunPluginCrashCallbacks sampleEnv
        (runRegistryOps sampleEnv Registry.empty
          [RegistryOp.connect 7 (some 5), RegistryOp.connect 7 (some 6)])
        7 "videoPlugin").events.filter (fun e => decide (e.helper = 5))
      = [{ helper := 5, window := 105, document := 1105, eventType := "PluginCrashed"
           init := { mPluginID := 7, mBubbles := true, mCancelable := true
                     mGmpPlugin := true, mPluginName := "videoPlugin"
                     mSubmittedCrashReport := false }
           trusted := true, mOnlyChromeDispatch := true }] :=
  (RunPluginCrashCallbacks_notifies sampleEnv sampleEnv
      [RegistryOp.connect 7 (some 5), RegistryOp.connect 7 (some 6)] 7
      "videoPlugin").2.1 5 105 1105 (by decide) rfl

/-- C5: in a registry where no helper is listed twice under one plugin id,
`DisconnectCrashHelper(L)` for a non-null L leaves L under no id, drops every
id whose array became empty, keeps every other id, and leaves under every id
the helpers other than L that were there, in their order; if L was listed
nowhere, the registry is unchanged. -/
theorem DisconnectCrashHelper_removes (r : Registry) (L : Nat)
    (hnd : ∀ k helpers, r k = some helpers → helpers.Nodup) :
    (∀ k, L ∉ (DisconnectCrashHelper r (some L)).listeners k)
    ∧ (∀ k helpers, r k = some helpers → L ∈ helpers → (∀ h ∈ helpers, h = L) →
        DisconnectCrashHelper r (some L) k = none)
    ∧ (∀ k, DisconnectCrashHelper r (some L) k = some [] → r k = some [])
    ∧ (∀ k helpers, r k = some helpers → (∃ h ∈ helpers, h ≠ L) →
        DisconnectCrashHelper r (some L) k
          = some (helpers.filter (fun h => decide (h ≠ L))))
    ∧ (∀ k, (DisconnectCrashHelper r (some L)).listeners k
          = (r.listeners k).filter (fun h => decide (h ≠ L)))
    ∧ (∀ k M, M ≠ L →
        (M ∈ (DisconnectCrashHelper r (some L)).listeners k ↔ M ∈ r.listeners k))
    ∧ ((∀ k, L ∉ r.listeners k) → DisconnectCrashHelper r (some L) = r) := by
  have hlist : ∀ k, (DisconnectCrashHelper r (some L)).listeners k
      = (r.listeners k).filter (fun h => decide (h ≠ L)) := by
    intro k
    simp only [Registry.listeners]
    rw [disconnect_at]
    cases hr : r k with
    | none => simp
    | some helpers =>
      have hn := hnd k helpers hr
      simp only [Option.getD_some]
      by_cases hL : L ∈ helpers
      · rw [← erase_eq_filter_of_nodup helpers L hn]
        by_cases he : helpers.erase L = [] <;> simp [hL, he]
      · rw [filter_ne_eq_self helpers L hL]
        simp [hL]
  refine ⟨?_, ?_, ?_, ?_, hlist, ?_, ?_⟩
  · intro k
    rw [hlist]
    simp
  · intro k helpers hr hL hall
    have hn := hnd k helpers hr
    rw [disconnect_at, hr]
    have he : helpers.erase L = [] := by
      rw [erase_eq_filter_of_nodup helpers L hn, List.filter_eq_nil_iff]
      intro a ha
      simp [hall a ha]
    simp [hL, he]
  · intro k hk
    rw [disconnect_at] at hk
    cases hr : r k with
    | none => rw [hr] at hk; simp at hk
    | some helpers =>
      rw [hr] at hk
      by_cases hL : L ∈ helpers
      · by_cases he : helpers.erase L = []
        · simp [hL, he] at hk
        · simp only [hL, he, if_true, if_false, Option.some.injEq] at hk
      · simp only [hL, if_false, Option.some.injEq] at hk
        rw [hk]
  · intro k helpers hr hex
    have hn := hnd k helpers hr
    obtain ⟨h, hh, hne⟩ := hex
    rw [disconnect_at, hr]
    by_cases hL : L ∈ helpers
    · have he : helpers.erase L ≠ [] := by
        intro hcontra
        have hmem : h ∈ helpers.erase L := (List.mem_erase_of_ne hne).mpr hh
        rw [hcontra] at hmem
        simp at hmem
      simp only [hL, he, if_true, if_false]
      rw [erase_eq_filter_of_nodup helpers L hn]
    · simp only [hL, if_false]
      rw [filter_ne_eq_self helpers L hL]
  · intro k M hM
    rw [hlist]
    simp [hM]
  · intro hno
    funext k
    rw [disconnect_at]
    cases hr : r k with
    | none => rfl
    | some helpers =>
      have := hno k
      simp only [Registry.listeners, hr, Option.getD_some] at this
      simp [this]

/-- C5 (witness): in the sample registry no helper is listed twice; after
disconnecting helper 5, plugin id 8, where it was alone, is dropped. -/
theorem DisconnectCrashHelper_removes_witness :
    (∀ k helpers, sampleRegistry k = some helpers → helpers.Nodup)
    ∧ DisconnectCrashHelper sampleRegistry (some 5) 8 = none := by
  have hnd : ∀ k helpers, sampleRegistry k = some helpers → helpers.Nodup := by
    intro k helpers hk
    unfold sampleRegistry at hk
    by_cases h7 : k = 7
    · simp [h7] at hk
      subst hk
      decide
    · by_cases h8 : k = 8
      · simp [h8] at hk
        subst hk
        decide
      · simp [h7, h8] at hk
  exact ⟨hnd, (DisconnectCrashHelper_removes sampleRegistry 5 hnd).2.1 8 [5] (by decide)
    (by decide) (by decide)⟩

/-- C6: in every registry reached from the empty one by `ConnectCrashHelper`,
`DisconnectCrashHelper` and `RunPluginCrashCallbacks` calls, the array under
any plugin id lists no helper twice and is not empty. -/
theorem reachable_registry_wellFormed (env : CrashEnv) (ops : List RegistryOp)
    (k : Nat) (helpers : List Nat)
    (h : runRegistryOps env Registry.empty ops k = some helpers) :
    helpers.Nodup ∧ helpers ≠ [] := by
  have hempty : Registry.WellFormed Registry.empty := by
    intro k helpers hk
    simp [Registry.empty] at hk
  exact wellFormed_run env ops Registry.empty hempty k helpers h

/-- C6 (witness): connect 5 and 6 to plugin 7 (5 twice), connect 5 to plugin
8, crash plugin 8, disconnect 5: plugin 7 is left with helper 6. -/
theorem reachable_registry_wellFormed_witness :
    runRegistryOps sampleEnv Registry.empty
        [RegistryOp.connect 7 (some 5), RegistryOp.connect 7 (some 6),
         RegistryOp.connect 7 (some 5), RegistryOp.connect 8 (some 5),
         RegistryOp.crash 8 "videoPlugin", RegistryOp.disconnect (some 5)] 7 = some [6]
    ∧ ([6] : List Nat).Nodup ∧ ([6] : List Nat) ≠ [] :=
  ⟨by decide,
   reachable_registry_wellFormed sampleEnv
     [RegistryOp.connect 7 (some 5), RegistryOp.connect 7 (some 6),
      RegistryOp.connect 7 (some 5), RegistryOp.connect 8 (some 5),
      RegistryOp.crash 8 "videoPlugin", RegistryOp.disconnect (some 5)] 7 [6] (by decide)⟩

/-! ## The claims on capability acquisition -/

/-- C1 (counterexample): once worker-side shutdown has begun, each of the three
acquisition calls, given a tag and a callback, fails with `NS_ERROR_FAILURE`
and never invokes the callback. -/
theorem acquisition_shutdown_counterexample :
    doneCount 9 (GetDecryptingGMPVideoDecoder sampleShuttingDown (some Settlement.Reject)
        (some 3) (some ["video-decode"]) "abc" (some 9) 0).2 = 0
    ∧ doneCount 9 (GetGMPVideoEncoder sampleShuttingDown (some Settlement.Reject)
        (some 3) (some ["video-encode"]) "abc" (some 9)).2 = 0
    ∧ doneCount 9 (GetGMPDecryptor none sampleShuttingDown (some Settlement.Reject)
        (some 3) (some ["decrypt"]) "abc" (some 9)).2 = 0 := by
  decide

/-- C1 (amended): for an acquisition call with a non-empty tag set and a
non-null callback (and, for the decryptor, a sandbox check that passes or is
compiled out): before worker-side shutdown the call returns `NS_OK` and,
however the provider's promise is settled (resolved with a connection from
which the capability is or is not extracted, or rejected), the callback is
invoked exactly once; once worker-side shutdown has begun the call returns
`NS_ERROR_FAILURE`, the provider is not asked and the callback is not
invoked. -/
theorem acquisition_callback_once (s : GoannaMediaPluginService) (sandbox : Option Bool)
    (aHelper : Option Nat) (tags : List String) (aNodeId : String) (callback : Nat)
    (aDecryptorId : Nat) (htags : tags ≠ []) (hsandbox : sandbox ≠ some false) :
    (s.mShuttingDownOnGMPThread = false → ∀ settled : Settlement,
      ((GetDecryptingGMPVideoDecoder s (some settled) aHelper (some tags) aNodeId
          (some callback) aDecryptorId).1 = nsresult.NS_OK
        ∧ doneCount callback (GetDecryptingGMPVideoDecoder s (some settled) aHelper
            (some tags) aNodeId (some callback) aDecryptorId).2 = 1)
      ∧ ((GetGMPVideoEncoder s (some settled) aHelper (some tags) aNodeId
          (some callback)).1 = nsresult.NS_OK
        ∧ doneCount callback (GetGMPVideoEncoder s (some settled) aHelper (some tags)
            aNodeId (some callback)).2 = 1)
      ∧ ((GetGMPDecryptor sandbox s (some settled) aHelper (some tags) aNodeId
          (some callback)).1 = nsresult.NS_OK
        ∧ doneCount callback (GetGMPDecryptor sandbox s (some settled) aHelper (some tags)
            aNodeId (some callback)).2 = 1))
    ∧ (s.mShuttingDownOnGMPThread = true → ∀ promise : Option Settlement,
      GetDecryptingGMPVideoDecoder s promise aHelper (some tags) aNodeId (some callback)
          aDecryptorId = (nsresult.NS_ERROR_FAILURE, [])
      ∧ GetGMPVideoEncoder s promise aHelper (some tags) aNodeId (some callback)
          = (nsresult.NS_ERROR_FAILURE, [])
      ∧ GetGMPDecryptor sandbox s promise aHelper (some tags) aNodeId (some callback)
          = (nsresult.NS_ERROR_FAILURE, [])) := by
  have hlen : tags.length > 0 := List.length_pos.mpr htags
  constructor
  · intro hs settled
    refine ⟨?_, ?_, ?_⟩
    · cases settled with
      | Reject =>
        simp [GetDecryptingGMPVideoDecoder, hlen, hs, MozPromiseThen, doneCount,
          Effect.isDoneOf]
      | Resolve wrapper =>
        cases hp : wrapper.mParent with
        | none =>
          simp [GetDecryptingGMPVideoDecoder, hlen, hs, MozPromiseThen, doneCount,
            Effect.isDoneOf, hp]
        | some parent =>
          cases hg : parent.GetGMPVideoDecoder aDecryptorId <;>
            simp [GetDecryptingGMPVideoDecoder, hlen, hs, MozPromiseThen, doneCount,
              Effect.isDoneOf, hp, hg]
    · cases settled with
      | Reject =>
        simp [GetGMPVideoEncoder, hlen, hs, MozPromiseThen, doneCount, Effect.isDoneOf]
      | Resolve wrapper =>
        cases hp : wrapper.mParent with
        | none =>
          simp [GetGMPVideoEncoder, hlen, hs, MozPromiseThen, doneCount,
            Effect.isDoneOf, hp]
        | some parent =>
          cases hg : parent.GetGMPVideoEncoder <;>
            simp [GetGMPVideoEncoder, hlen, hs, MozPromiseThen, doneCount,
              Effect.isDoneOf, hp, hg]
    · cases settled with
      | Reject =>
        simp [GetGMPDecryptor, hsandbox, hlen, hs, MozPromiseThen, doneCount,
          Effect.isDoneOf]
      | Resolve wrapper =>
        cases hp : wrapper.mParent with
        | none =>
          simp [GetGMPDecryptor, hsandbox, hlen, hs, MozPromiseThen, doneCount,
            Effect.isDoneOf, hp]
        | some parent =>
          cases hg : parent.GetGMPDecryptor <;>
            simp [GetGMPDecryptor, hsandbox, hlen, hs, MozPromiseThen, doneCount,
              Effect.isDoneOf, hp, hg]
  · intro hs promise
    refine ⟨?_, ?_, ?_⟩
    · simp [GetDecryptingGMPVideoDecoder, hlen, hs]
    · simp [GetGMPVideoEncoder, hlen, hs]
    · simp [GetGMPDecryptor, hsandbox, hlen, hs]

/-- C1 (witness): a decoder request on a fresh service whose provider resolves
with the sample content parent invokes callback 9 once. -/
theorem acquisition_callback_once_witness :
    (["video-decode"] : List String) ≠ [] ∧ (some true : Option Bool) ≠ some false
    ∧ doneCount 9 (GetDecryptingGMPVideoDecoder GoannaMediaPluginService.construct
        (some (Settlement.Resolve { mParent := some sampleParent })) (some 3)
        (some ["video-decode"]) "abc" (some 9) 0).2 = 1 :=
  ⟨by decide, by decide,
   ((acquisition_callback_once GoannaMediaPluginService.construct (some true) (some 3)
      ["video-decode"] "abc" 9 0 (by decide) (by decide)).1 rfl
      (Settlement.Resolve { mParent := some sampleParent })).1.2⟩

/-- C8: a `GetGMPDecryptor` call made while `CanSandboxMedia()` answers false
returns `NS_ERROR_NOT_AVAILABLE` at once, whatever its arguments and the state
of the service: `GetContentParent` is not called and no callback is invoked,
with a live instance or otherwise. -/
theorem GetGMPDecryptor_without_sandbox (s : GoannaMediaPluginService)
    (promise : Option Settlement) (aHelper : Option Nat) (aTags : Option (List String))
    (aNodeId : String) (aCallback : Option Nat) :
    (GetGMPDecryptor (some false) s promise aHelper aTags aNodeId aCallback).1
        = nsresult.NS_ERROR_NOT_AVAILABLE
    ∧ (GetGMPDecryptor (some false) s promise aHelper aTags aNodeId aCallback).2 = []
    ∧ (∀ e ∈ (GetGMPDecryptor (some false) s promise aHelper aTags aNodeId aCallback).2,
        e.isGetContentParent = false)
    ∧ (∀ callback actor, Effect.DecryptorDone callback (some actor) ∉
        (GetGMPDecryptor (some false) s promise aHelper aTags aNodeId aCallback).2) := by
  simp [GetGMPDecryptor]

/-- C9 (counterexample): the spec's scenario, tags `["video-decode"]` and node
id `"abc"`, with a connection that has no decoder: the callback is called with
a null actor and a null host, which is exactly the call made when the provider
fails, so no error kind such as CapabilityUnsupported reaches it. -/
theorem GetDecryptingGMPVideoDecoder_extraction_counterexample :
    GetDecryptingGMPVideoDecoder GoannaMediaPluginService.construct
          (some (Settlement.Resolve { mParent := some sampleBareParent })) (some 3)
          (some ["video-decode"]) "abc" (some 9) 0
        = (nsresult.NS_OK,
            [Effect.GetContentParent (some 3) "abc" GMPApi.GMP_API_VIDEO_DECODER
               ["video-decode"],
             Effect.DecoderDone 9 none none])
    ∧ GetDecryptingGMPVideoDecoder GoannaMediaPluginService.construct
          (some (Settlement.Resolve { mParent := some sampleBareParent })) (some 3)
          (some ["video-decode"]) "abc" (some 9) 0
        = GetDecryptingGMPVideoDecoder GoannaMediaPluginService.construct
          (some Settlement.Reject) (some 3) (some ["video-decode"]) "abc" (some 9) 0 :=
  ⟨rfl, rfl⟩

/-- C9 (amended): for a decoder request with a non-empty tag set and a non-null
callback made before worker-side shutdown, when the provider resolves with a
connection whose parent is absent or whose `GetGMPVideoDecoder` fails, the
callback gets a null actor and a null host, `SetCrashHelper` is not called, and
the whole call is the one made on provider failure (the callback is passed no
error kind); when `GetGMPVideoDecoder` succeeds, `SetCrashHelper` is called on
the actor with the supplied helper and then the callback gets that actor and
its host. -/
theorem GetDecryptingGMPVideoDecoder_extraction (s : GoannaMediaPluginService)
    (aHelper : Option Nat) (tags : List String) (aNodeId : String) (callback : Nat)
    (aDecryptorId : Nat) (wrapper : CloseBlocker) (htags : tags ≠ [])
    (hs : s.mShuttingDownOnGMPThread = false) :
    ((wrapper.mParent = none ∨ ∃ parent rv, wrapper.mParent = some parent
          ∧ parent.GetGMPVideoDecoder aDecryptorId = Except.error rv) →
      GetDecryptingGMPVideoDecoder s (some (Settlement.Resolve wrapper)) aHelper
          (some tags) aNodeId (some callback) aDecryptorId
        = (nsresult.NS_OK,
            [Effect.GetContentParent aHelper aNodeId GMPApi.GMP_API_VIDEO_DECODER tags,
             Effect.DecoderDone callback none none]))
    ∧ (∀ parent a, wrapper.mParent = some parent →
        parent.GetGMPVideoDecoder aDecryptorId = Except.ok a →
      GetDecryptingGMPVideoDecoder s (some (Settlement.Resolve wrapper)) aHelper
          (some tags) aNodeId (some callback) aDecryptorId
        = (nsresult.NS_OK,
            [Effect.GetContentParent aHelper aNodeId GMPApi.GMP_API_VIDEO_DECODER tags,
             Effect.SetCrashHelper a.actor aHelper,
             Effect.DecoderDone callback (some a.actor) (some a.host)]))
    ∧ ((wrapper.mParent = none ∨ ∃ parent rv, wrapper.mParent = some parent
          ∧ parent.GetGMPVideoDecoder aDecryptorId = Except.error rv) →
      GetDecryptingGMPVideoDecoder s (some (Settlement.Resolve wrapper)) aHelper
          (some tags) aNodeId (some callback) aDecryptorId
        = GetDecryptingGMPVideoDecoder s (some Settlement.Reject) aHelper
          (some tags) aNodeId (some callback) aDecryptorId) := by
  have hlen : tags.length > 0 := List.length_pos.mpr htags
  refine ⟨?_, ?_, ?_⟩
  · intro hfail
    rcases hfail with hp | ⟨parent, rv, hp, hg⟩
    · simp [GetDecryptingGMPVideoDecoder, hlen, hs, MozPromiseThen, hp]
    · simp [GetDecryptingGMPVideoDecoder, hlen, hs, MozPromiseThen, hp, hg]
  · intro parent a hp hg
    simp [GetDecryptingGMPVideoDecoder, hlen, hs, MozPromiseThen, hp, hg]
  · intro hfail
    rcases hfail with hp | ⟨parent, rv, hp, hg⟩
    · simp [GetDecryptingGMPVideoDecoder, hlen, hs, MozPromiseThen, hp]
    · simp [GetDecryptingGMPVideoDecoder, hlen, hs, MozPromiseThen, hp, hg]

/-- C9 (witness): tags `["video-decode"]` and node id `"abc"` with the sample
content parent, whose decoder is actor 40 with host 41: helper 3 is attached to
actor 40, then callback 9 gets actor 40 and host 41. -/
theorem GetDecryptingGMPVideoDecoder_extraction_witness :
    (["video-decode"] : List String) ≠ []
    ∧ GoannaMediaPluginService.construct.mShuttingDownOnGMPThread = false
    ∧ GetDecryptingGMPVideoDecoder GoannaMediaPluginService.construct
          (some (Settlement.Resolve { mParent := some sampleParent })) (some 3)
          (some ["video-decode"]) "abc" (some 9) 0
        = (nsresult.NS_OK,
            [Effect.GetContentParent (some 3) "abc" GMPApi.GMP_API_VIDEO_DECODER
               ["video-decode"],
             Effect.SetCrashHelper 40 (some 3),
             Effect.DecoderDone 9 (some 40) (some 41)]) :=
  ⟨by decide, rfl,
   (GetDecryptingGMPVideoDecoder_extraction GoannaMediaPluginService.construct (some 3)
      ["video-decode"] "abc" 9 0 { mParent := some sampleParent } (by decide) rfl).2.1
      sampleParent { actor := 40, host := 41 } rfl rfl⟩

/-! ## The claims on the worker thread -/

theorem runGetThreads_of_thread (thread : Nat) (calls : List (Except nsresult Nat))
    (s : GoannaMediaPluginService) (hs : s.mGMPThread = some thread) :
    ∀ out ∈ runGetThreads s calls,
      out.value = (nsresult.NS_OK, some thread) ∧ out.trace = [] := by
  induction calls generalizing s with
  | nil => intro out hout; simp [runGetThreads] at hout
  | cons c rest ih =>
    have hget : GetThread s c
        = { value := (nsresult.NS_OK, some thread), service := s, trace := [] } := by
      simp [GetThread, hs]
    intro out hout
    simp only [runGetThreads, List.mem_cons] at hout
    rcases hout with h1 | h1
    · rw [h1, hget]
      exact ⟨rfl, rfl⟩
    · rw [hget] at h1
      exact ih s hs out h1

theorem traceOf_of_nil {α : Type} (outs : List (Ret α))
    (h : ∀ out ∈ outs, out.trace = []) : traceOf outs = [] := by
  induction outs with
  | nil => rfl
  | cons o rest ih =>
    have h1 : o.trace = [] := h o (List.mem_cons_self o rest)
    have h2 : traceOf rest = [] := ih (fun out hout => h out (List.mem_cons_of_mem o hout))
    simp only [traceOf, List.map_cons, List.flatten_cons] at h2 ⊢
    rw [h1, h2]
    rfl

theorem runGetThreads_length (calls : List (Except nsresult Nat))
    (s : GoannaMediaPluginService) : (runGetThreads s calls).length = calls.length := by
  induction calls generalizing s with
  | nil => rfl
  | cons c rest ih => simp [runGetThreads, ih]

/-- C10: for a sequence of `GetThread` calls on a service that has no worker
yet and has not begun shutdown, when thread creation succeeds, the thread is
created exactly once, by the first call, `InitializePlugins` is called exactly
once, by the first call right after the creation and before it returns, and
every call returns `NS_OK` with that same thread. -/
theorem GetThread_creates_once (s : GoannaMediaPluginService) (thread : Nat)
    (rest : List (Except nsresult Nat)) (hno : s.mGMPThread = none)
    (hshut : s.mGMPThreadShutdown = false) :
    ((traceOf (runGetThreads s (Except.ok thread :: rest))).filter
        Effect.isThreadCreation).length = 1
    ∧ ((traceOf (runGetThreads s (Except.ok thread :: rest))).filter
        Effect.isInitializePlugins).length = 1
    ∧ (∃ first later, runGetThreads s (Except.ok thread :: rest) = first :: later
        ∧ first.trace = [Effect.NS_NewNamedThread "GMPThread" (some thread),
                         Effect.InitializePlugins { thread := thread }]
        ∧ first.service.mGMPThread = some thread
        ∧ (∀ out ∈ later, out.trace = [])
        ∧ later.length = rest.length)
    ∧ (∀ out ∈ runGetThreads s (Except.ok thread :: rest),
        out.value = (nsresult.NS_OK, some thread)) := by
  have hget : GetThread s (Except.ok thread)
      = { value := (nsresult.NS_OK, some thread)
          service := { s with mGMPThread := some thread
                              mAbstractGMPThread := some { thread := thread } }
          trace := [Effect.NS_NewNamedThread "GMPThread" (some thread),
                    Effect.InitializePlugins { thread := thread }] } := by
    simp [GetThread, hno, hshut]
  have hlater := runGetThreads_of_thread thread rest
    (GetThread s (Except.ok thread)).service (by rw [hget])
  have hnil : traceOf (runGetThreads (GetThread s (Except.ok thread)).service rest) = [] :=
    traceOf_of_nil _ (fun out hout => (hlater out hout).2)
  have htrace : traceOf (runGetThreads s (Except.ok thread :: rest))
      = [Effect.NS_NewNamedThread "GMPThread" (some thread),
         Effect.InitializePlugins { thread := thread }] := by
    simp only [traceOf, runGetThreads, List.map_cons, List.flatten_cons] at hnil ⊢
    rw [hnil, hget]
    rfl
  refine ⟨?_, ?_, ?_, ?_⟩
  · rw [htrace]
    rfl
  · rw [htrace]
    rfl
  · refine ⟨GetThread s (Except.ok thread),
      runGetThreads (GetThread s (Except.ok thread)).service rest, rfl, ?_, ?_, ?_, ?_⟩
    · rw [hget]
    · rw [hget]
    · exact fun out hout => (hlater out hout).2
    · exact runGetThreads_length rest _
  · intro out hout
    simp only [runGetThreads, List.mem_cons] at hout
    rcases hout with h1 | h1
    · rw [h1, hget]
    · exact (hlater out h1).1

/-- C10 (witness): three `GetThread` calls on a freshly constructed service,
with thread 11 on offer to the first. -/
theorem GetThread_creates_once_witness :
    GoannaMediaPluginService.construct.mGMPThread = none
    ∧ GoannaMediaPluginService.construct.mGMPThreadShutdown = false
    ∧ ((traceOf (runGetThreads GoannaMediaPluginService.construct
          [Except.ok 11, Except.ok 12, Except.error nsresult.NS_ERROR_FAILURE])).filter
        Effect.isThreadCreation).length = 1 :=
  ⟨rfl, rfl,
   (GetThread_creates_once GoannaMediaPluginService.construct 11
      [Except.ok 12, Except.error nsresult.NS_ERROR_FAILURE] rfl rfl).1⟩

theorem GetThread_of_down (s : GoannaMediaPluginService) (hs : s.Down)
    (newThread : Except nsresult Nat) :
    GetThread s newThread
      = { value := (nsresult.NS_ERROR_FAILURE, none), service := s, trace := [] } := by
  simp [GetThread, hs.1, hs.2]

theorem decoder_trace_no_creation (s : GoannaMediaPluginService)
    (promise : Option Settlement) (aHelper : Option Nat) (aTags : Option (List String))
    (aNodeId : String) (aCallback : Option Nat) (aDecryptorId : Nat) :
    (GetDecryptingGMPVideoDecoder s promise aHelper aTags aNodeId aCallback
      aDecryptorId).2.any Effect.isThreadCreation = false := by
  unfold GetDecryptingGMPVideoDecoder MozPromiseThen
  repeat' split
  all_goals beta_reduce
  all_goals repeat' split
  all_goals simp [Effect.isThreadCreation]

theorem encoder_trace_no_creation (s : GoannaMediaPluginService)
    (promise : Option Settlement) (aHelper : Option Nat) (aTags : Option (List String))
    (aNodeId : String) (aCallback : Option Nat) :
    (GetGMPVideoEncoder s promise aHelper aTags aNodeId aCallback).2.any
      Effect.isThreadCreation = false := by
  unfold GetGMPVideoEncoder MozPromiseThen
  repeat' split
  all_goals beta_reduce
  all_goals repeat' split
  all_goals simp [Effect.isThreadCreation]

theorem decryptor_trace_no_creation (sandbox : Option Bool) (s : GoannaMediaPluginService)
    (promise : Option Settlement) (aHelper : Option Nat) (aTags : Option (List String))
    (aNodeId : String) (aCallback : Option Nat) :
    (GetGMPDecryptor sandbox s promise aHelper aTags aNodeId aCallback).2.any
      Effect.isThreadCreation = false := by
  unfold GetGMPDecryptor MozPromiseThen
  repeat' split
  all_goals beta_reduce
  all_goals repeat' split
  all_goals simp [Effect.isThreadCreation]

theorem step_of_down (s : GoannaMediaPluginService) (hs : s.Down) (op : ServiceOp) :
    (step s op).service.Down ∧ (step s op).trace.any Effect.isThreadCreation = false := by
  have hget := GetThread_of_down s hs
  cases op with
  | Init newThread =>
    simp only [step, Init, hget]
    exact ⟨hs, by simp [Effect.isThreadCreation]⟩
  | RunPluginCrashCallbacks env aPluginId aPluginName =>
    simp only [step]
    exact ⟨hs, by simp [Effect.isThreadCreation]⟩
  | ShutdownGMPThread =>
    simp only [step, ShutdownGMPThread, hs.1]
    exact ⟨⟨rfl, rfl⟩, by simp⟩
  | GMPDispatch newThread event flags dispatched =>
    simp only [step, GMPDispatch, hget]
    exact ⟨hs, by simp⟩
  | GMPDispatchRunnable newThread event flags defaultFlags dispatched =>
    simp only [step, GMPDispatchRunnable, GMPDispatch, hget]
    exact ⟨hs, by simp⟩
  | GetThread newThread =>
    simp only [step, hget]
    exact ⟨hs, by simp⟩
  | GetAbstractGMPThread =>
    simp only [step]
    exact ⟨hs, by simp⟩
  | GetDecryptingGMPVideoDecoder promise aHelper aTags aNodeId aCallback aDecryptorId =>
    simp only [step]
    exact ⟨hs, decoder_trace_no_creation s promise aHelper aTags aNodeId aCallback
      aDecryptorId⟩
  | GetGMPVideoEncoder promise aHelper aTags aNodeId aCallback =>
    simp only [step]
    exact ⟨hs, encoder_trace_no_creation s promise aHelper aTags aNodeId aCallback⟩
  | GetGMPDecryptor sandbox promise aHelper aTags aNodeId aCallback =>
    simp only [step]
    exact ⟨hs, decryptor_trace_no_creation sandbox s promise aHelper aTags aNodeId
      aCallback⟩
  | ConnectCrashHelper aPluginId aHelper =>
    simp only [step]
    exact ⟨hs, by simp⟩
  | DisconnectCrashHelper aHelper =>
    simp only [step]
    exact ⟨hs, by simp⟩

theorem step_GetThread_of_down (s : GoannaMediaPluginService) (hs : s.Down)
    (newThread : Except nsresult Nat) :
    (step s (ServiceOp.GetThread newThread)).value = (some nsresult.NS_ERROR_FAILURE, none)
    ∧ (step s (ServiceOp.GetThread newThread)).trace = [] := by
  simp [step, GetThread_of_down s hs]

theorem runServiceOps_of_down (ops : List ServiceOp) (s : GoannaMediaPluginService)
    (hs : s.Down) :
    ∀ op out, (op, out) ∈ List.zip ops (runServiceOps s ops) →
      (out.service.Down ∧ out.trace.any Effect.isThreadCreation = false)
      ∧ ∀ newThread, op = ServiceOp.GetThread newThread →
          out.value = (some nsresult.NS_ERROR_FAILURE, none) ∧ out.trace = [] := by
  induction ops generalizing s with
  | nil => intro op out h; simp [runServiceOps] at h
  | cons o rest ih =>
    intro op out h
    simp only [runServiceOps, List.zip_cons_cons, List.mem_cons, Prod.mk.injEq] at h
    rcases h with ⟨h1, h2⟩ | h
    · subst h1 h2
      refine ⟨step_of_down s hs op, ?_⟩
      intro newThread hop
      subst hop
      exact step_GetThread_of_down s hs newThread
    · exact ih (step s o).service (step_of_down s hs o).1 op out h

/-- C2 (counterexample): on a freshly constructed service that is then shut
down, `GetThread` fails with `NS_ERROR_FAILURE`, which is not the code
`NS_ERROR_NOT_AVAILABLE`. -/
theorem GetThread_after_shutdown_counterexample :
    (GetThread (ShutdownGMPThread GoannaMediaPluginService.construct).service
        (Except.ok 11)).value.1 = nsresult.NS_ERROR_FAILURE
    ∧ (GetThread (ShutdownGMPThread GoannaMediaPluginService.construct).service
        (Except.ok 11)).value.1 ≠ nsresult.NS_ERROR_NOT_AVAILABLE := by
  decide

/-- C2 (amended): from any state of the service, once `ShutdownGMPThread` has
run, in every later sequence of calls on the service each call leaves the
worker handle empty and the shutdown flag set and starts no thread, and each
`GetThread` call fails with `NS_ERROR_FAILURE`, hands out no thread and calls
nothing. -/
theorem GetThread_after_shutdown (s : GoannaMediaPluginService) (ops : List ServiceOp)
    (op : ServiceOp) (out : Ret (Option nsresult × Option Nat))
    (h : (op, out) ∈ List.zip ops (runServiceOps (ShutdownGMPThread s).service ops)) :
    out.service.mGMPThread = none
    ∧ out.service.mGMPThreadShutdown = true
    ∧ (∀ e ∈ out.trace, e.isThreadCreation = false)
    ∧ ∀ newThread, op = ServiceOp.GetThread newThread →
        out.value = (some nsresult.NS_ERROR_FAILURE, none) ∧ out.trace = [] := by
  have hdown : (ShutdownGMPThread s).service.Down := ⟨rfl, rfl⟩
  have hall := runServiceOps_of_down ops (ShutdownGMPThread s).service hdown op out h
  refine ⟨hall.1.1.1, hall.1.1.2, ?_, hall.2⟩
  intro e he
  have hany := hall.1.2
  rw [List.any_eq_false] at hany
  simpa using hany e he

/-- C2 (witness): a service with worker thread 11 is shut down; the first call
afterwards is a `GetThread` that is offered thread 12. -/
theorem GetThread_after_shutdown_witness :
    (step (ShutdownGMPThread (GetThread GoannaMediaPluginService.construct
        (Except.ok 11)).service).service (ServiceOp.GetThread (Except.ok 12))).value
      = (some nsresult.NS_ERROR_FAILURE, none) :=
  ((GetThread_after_shutdown
      (GetThread GoannaMediaPluginService.construct (Except.ok 11)).service
      [ServiceOp.GetThread (Except.ok 12), ServiceOp.ConnectCrashHelper 7 (some 5),
       ServiceOp.Init (Except.ok 12)]
      (ServiceOp.GetThread (Except.ok 12))
      (step (ShutdownGMPThread (GetThread GoannaMediaPluginService.construct
        (Except.ok 11)).service).service (ServiceOp.GetThread (Except.ok 12)))
      (List.Mem.head _)).2.2.2
      (Except.ok 12) rfl).1

/-! ## The claim on the singleton -/

/-- C7 (counterexample): the service is created, process shutdown clears
`sSingletonService`, and a further `GetOrCreate` on the main thread constructs
a second instance; it returns it when `ClearOnShutdown` only records the late
registration, and null when `ClearOnShutdown` clears the pointer at once. -/
theorem GetOrCreate_after_teardown_counterexample :
    (runShutdownHooks
        (GetOrCreate true true true false SingletonState.start).2).sSingletonService = none
    ∧ (GetOrCreate true true true false (runShutdownHooks
        (GetOrCreate true true true false SingletonState.start).2)).1 = some 1
    ∧ (GetOrCreate true true true false (runShutdownHooks
        (GetOrCreate true true true false SingletonState.start).2)).2.constructed.length = 2
    ∧ (GetOrCreate true true true true (runShutdownHooks
        (GetOrCreate true true true true SingletonState.start).2)).1 = none
    ∧ (GetOrCreate true true true true (runShutdownHooks
        (GetOrCreate true true true true SingletonState.start).2)).2.constructed.length
        = 2 := by
  decide

/-- C7 (amended): after process shutdown has cleared `sSingletonService`, a
`GetOrCreate` call that gets to run `GetOrCreateOnMainThread` (on the main
thread, or from another thread whose helper the main thread runs) constructs
exactly one new instance; it returns that instance, unless `ClearOnShutdown`
clears the pointer at once when called after shutdown, in which case it
returns null.  A call from another thread whose helper is never run returns
null and constructs nothing. -/
theorem GetOrCreate_after_teardown (p : SingletonState)
    (NS_IsMainThread runnableRuns XRE_IsParentProcess clearsWhenPast : Bool)
    (hcleared : p.sSingletonService = none) (hpast : p.pastShutdown = true) :
    ((NS_IsMainThread = true ∨ runnableRuns = true) →
      (GetOrCreate NS_IsMainThread runnableRuns XRE_IsParentProcess clearsWhenPast
          p).2.constructed.length = p.constructed.length + 1
      ∧ (clearsWhenPast = false →
          (GetOrCreate NS_IsMainThread runnableRuns XRE_IsParentProcess clearsWhenPast
            p).1 = some p.constructed.length)
      ∧ (clearsWhenPast = true →
          (GetOrCreate NS_IsMainThread runnableRuns XRE_IsParentProcess clearsWhenPast
            p).1 = none))
    ∧ (NS_IsMainThread = false → runnableRuns = false →
        GetOrCreate NS_IsMainThread runnableRuns XRE_IsParentProcess clearsWhenPast p
          = (none, p)) := by
  have hmain : (GetOrCreateOnMainThread XRE_IsParentProcess clearsWhenPast
        p).2.constructed.length = p.constructed.length + 1
      ∧ (clearsWhenPast = false →
          (GetOrCreateOnMainThread XRE_IsParentProcess clearsWhenPast p).1
            = some p.constructed.length)
      ∧ (clearsWhenPast = true →
          (GetOrCreateOnMainThread XRE_IsParentProcess clearsWhenPast p).1 = none) := by
    cases clearsWhenPast <;>
      simp [GetOrCreateOnMainThread, ClearOnShutdown, hcleared, hpast]
  constructor
  · intro hrun
    have hgo : GetOrCreate NS_IsMainThread runnableRuns XRE_IsParentProcess clearsWhenPast p
        = GetOrCreateOnMainThread XRE_IsParentProcess clearsWhenPast p := by
      rcases hrun with h | h
      · simp [GetOrCreate, h]
      · simp [GetOrCreate, h]
    rw [hgo]
    exact hmain
  · intro h1 h2
    simp [GetOrCreate, h1, h2]

/-- C7 (witness): the state after creating the service and running process
shutdown. -/
theorem GetOrCreate_after_teardown_witness :
    (runShutdownHooks
        (GetOrCreate true true true false SingletonState.start).2).sSingletonService = none
    ∧ (runShutdownHooks
        (GetOrCreate true true true false SingletonState.start).2).pastShutdown = true
    ∧ (GetOrCreate true true true false (runShutdownHooks
        (GetOrCreate true true true false SingletonState.start).2)).2.constructed.length
        = (runShutdownHooks
            (GetOrCreate true true true false SingletonState.start).2).constructed.length
          + 1 :=
  ⟨by decide, by decide,
   ((GetOrCreate_after_teardown
      (runShutdownHooks (GetOrCreate true true true false SingletonState.start).2)
      true true true false (by decide) (by decide)).1 (Or.inl rfl)).1⟩

end GMPService
